import Mathlib

/-!
Verification development for the natural-language database query system
(backend/api/services).  Python strings are embedded as lists of characters
and the service functions are translated into executable Lean definitions;
floating-point score arithmetic is embedded over the rationals.  External
capabilities (the Mistral oracle, Redis cache, ChromaDB vector store, the
relational executor and the wall clock) are passed in as parameters or
modelled as explicit inputs at the boundary where the services consume them.
-/

namespace NLQ

/-- Python strings are embedded as lists of characters. -/
abbrev Str := List Char

/-- Coerce a Lean string literal to the embedding type. -/
def lit (s : String) : Str := s.data

/-- Python str.upper on our embedding (per-character uppercasing). -/
def upperStr (s : Str) : Str := s.map Char.toUpper

/-- Python str.lower on our embedding (per-character lowercasing). -/
def lowerStr (s : Str) : Str := s.map Char.toLower

/-- Whitespace test used by str.strip, str.split and regex class backslash-s. -/
def isWs (c : Char) : Bool := c.isWhitespace

/-- Python str.lstrip (drop leading whitespace). -/
def trimLeftStr (s : Str) : Str := s.dropWhile isWs

/-- Python str.rstrip (drop trailing whitespace). -/
def trimRightStr (s : Str) : Str := (s.reverse.dropWhile isWs).reverse

/-- Python str.strip (drop whitespace at both ends). -/
def trimStr (s : Str) : Str := trimLeftStr (trimRightStr s)

/-- Helper for collapsing whitespace runs: the flag records whether the
previous character was whitespace (so the run emits a single space). -/
def collapseWsAux : Bool → Str → Str
  | _, [] => []
  | prevWs, c :: rest =>
    if isWs c then
      if prevWs then collapseWsAux true rest else ' ' :: collapseWsAux true rest
    else c :: collapseWsAux false rest

/-- Python re.sub of one-or-more whitespace with a single space. -/
def collapseWs (s : Str) : Str := collapseWsAux false s

/-- Python substring test: pat in s. -/
def contains_sub (pat : Str) : Str → Bool
  | [] => pat.isEmpty
  | c :: rest => List.isPrefixOf pat (c :: rest) || contains_sub pat rest

/-- Split a string at every character satisfying p, keeping empty pieces,
embedding the single-character-class regex splits used by the services. -/
def splitChars (p : Char → Bool) : Str → List (List Char)
  | [] => [[]]
  | c :: rest =>
    match splitChars p rest with
    | [] => if p c then [[], []] else [[c]]
    | g :: gs => if p c then [] :: g :: gs else (c :: g) :: gs

/-- Python str.split with no argument: split on whitespace, drop empties. -/
def py_split (s : Str) : List Str := (splitChars isWs s).filter (· ≠ [])

/-- Python s[-n:]: the last n characters of a string.  Because Python has
no negative zero index, s[-0:] is s[0:], the whole string, so the zero
case returns the input unchanged. -/
def takeRightN (n : Nat) (l : Str) : Str :=
  if n = 0 then l else l.drop (l.length - n)

/-- Python min on two numbers, kept kernel-reducible over the rationals. -/
def py_min (a b : ℚ) : ℚ := if a ≤ b then a else b

/-- Python max on two numbers, kept kernel-reducible over the rationals. -/
def py_max (a b : ℚ) : ℚ := if a ≤ b then b else a

/-- Scanner for Python str.replace: the counter skips the remainder of a
span already matched (matching consumes the pattern whole, left to right,
without overlap).  Structural recursion on the subject string keeps every
evaluation kernel-reducible.  The empty-pattern case is never used by the
embedded services. -/
def replaceAllAux (pat rep : Str) : Str → Nat → Str
  | [], _ => []
  | _ :: rest, k + 1 => replaceAllAux pat rep rest k
  | c :: rest, 0 =>
    if List.isPrefixOf pat (c :: rest) && !pat.isEmpty then
      rep ++ replaceAllAux pat rep rest (pat.length - 1)
    else c :: replaceAllAux pat rep rest 0

/-- Python str.replace pat rep, scanning left to right without overlap. -/
def replaceAll (pat rep s : Str) : Str := replaceAllAux pat rep s 0

/-- Case-insensitive character equality (re.IGNORECASE literal matching). -/
def ci_eq (a b : Char) : Bool := a.toLower = b.toLower

/-- Case-insensitive literal-pattern test at the head of a string. -/
def ci_is_pre : Str → Str → Bool
  | [], _ => true
  | _ :: _, [] => false
  | p :: ps, c :: cs => ci_eq p c && ci_is_pre ps cs

/-- Scanner for re.sub of a case-insensitive literal with the empty string;
the counter skips the remainder of a matched span. -/
def remove_ci_aux (pat : Str) : Str → Nat → Str
  | [], _ => []
  | _ :: rest, k + 1 => remove_ci_aux pat rest k
  | c :: rest, 0 =>
    if ci_is_pre pat (c :: rest) && !pat.isEmpty then
      remove_ci_aux pat rest (pat.length - 1)
    else c :: remove_ci_aux pat rest 0

/-- Python re.sub of a case-insensitive literal pattern with the empty
string.  The empty-pattern case is never used by the embedded services. -/
def remove_ci (pat s : Str) : Str := remove_ci_aux pat s 0

/-- Remainder of a string after its first greater-than sign, if any:
the regex fragment matching any non-gt characters then a literal gt. -/
def after_gt : Str → Option Str
  | [] => none
  | c :: rest => if c = '>' then some rest else after_gt rest

/-- Remainder after the first case-insensitive occurrence of tok, if any. -/
def after_tok_ci (tok : Str) : Str → Option Str
  | [] => if tok.isEmpty then some [] else none
  | c :: rest =>
    if ci_is_pre tok (c :: rest) then some ((c :: rest).drop tok.length)
    else after_tok_ci tok rest

/-- Generic scanner for re.sub(pattern, empty) over span matchers that
return the remainder after a match (always a proper suffix here): at each
position try the matcher; on a match skip to the remainder by counting, as
every remainder is a suffix of the tail; otherwise keep the character. -/
def scan_remove_aux (f : Str → Option Str) : Str → Nat → Str
  | [], _ => []
  | _ :: rest, k + 1 => scan_remove_aux f rest k
  | c :: rest, 0 =>
    match f (c :: rest) with
    | some rem => scan_remove_aux f rest (rest.length - rem.length)
    | none => c :: scan_remove_aux f rest 0

/-- Remove every non-overlapping match of the span matcher, left to right. -/
def scan_remove (f : Str → Option Str) (s : Str) : Str := scan_remove_aux f s 0

/-! ### Sanitizer span matchers (query_classifier._sanitize_input)

The three tag-removal regexes of the sanitizer are embedded as span matchers
fed to scan_remove: each returns the remainder after one match starting at
the head of its argument, or none. -/

/-- Matcher for the script-block regex: literal open-script tag (with any
non-gt attribute characters up to the closing gt), lazily up to the first
close-script tag, case-insensitively. -/
def match_script (s : Str) : Option Str :=
  if ci_is_pre (lit "<script") s then
    match after_gt (s.drop 7) with
    | some afterOpen => after_tok_ci (lit "</script>") afterOpen
    | none => none
  else none

/-- Tags removed (with their bodies) by the dangerous-tag regex. -/
def danger_tags : List Str :=
  [lit "iframe", lit "object", lit "embed", lit "applet", lit "meta", lit "link", lit "style"]

/-- Matcher at the head of a string for the close-tag fragment: literal
open-angle slash, optional whitespace, the given tag (case-insensitively,
the regex backreference), optional whitespace, closing gt. -/
def close_tag_at (tag : Str) (s : Str) : Option Str :=
  if List.isPrefixOf (lit "</") s then
    let s1 := (s.drop 2).dropWhile isWs
    if ci_is_pre tag s1 then
      match (s1.drop tag.length).dropWhile isWs with
      | d :: r => if d = '>' then some r else none
      | [] => none
    else none
  else none

/-- Remainder after the first close-tag match for tag, if any. -/
def find_close_tag (tag : Str) : Str → Option Str
  | [] => none
  | c :: rest =>
    match close_tag_at tag (c :: rest) with
    | some r => some r
    | none => find_close_tag tag rest

/-- Matcher for the dangerous-tag regex: open angle, optional whitespace,
one of the listed tags (the alternatives share no prefixes, so regex
alternation tries at most one), any non-gt characters, gt, then lazily up
to the matching close tag. -/
def match_danger_tag (s : Str) : Option Str :=
  match s with
  | c :: rest =>
    if c = '<' then
      danger_tags.findSome? (fun tag =>
        if ci_is_pre tag (rest.dropWhile isWs) then
          match after_gt ((rest.dropWhile isWs).drop tag.length) with
          | some afterOpen => find_close_tag tag afterOpen
          | none => none
        else none)
    else none
  | [] => none

/-- Matcher for the standalone-tag regex: open angle, one or more non-gt
characters, closing gt. -/
def match_tag (s : Str) : Option Str :=
  match s with
  | c :: rest =>
    if c = '<' then
      let inside := rest.takeWhile (fun d => !(d = '>'))
      match rest.drop inside.length with
      | d :: r => if d = '>' then (if inside.length = 0 then none else some r) else none
      | [] => none
    else none
  | [] => none

/-! ### QueryClassifier (query_classifier.py) -/

/-- Replacement table for command-injection patterns, in source dict order.
The dollar-open-paren and dollar-open-brace entries are unreachable because
every dollar sign was already removed by the preceding entry. -/
def command_injection_replacements : List (Str × Str) :=
  [ (lit "&&", lit " and "), (lit "||", lit " or "), (lit ";", lit " "),
    (lit "|", lit " "), (lit "\x60", lit "\x27"), (lit "$", lit ""),
    (lit "$(", lit ""), (lit "$\x7b", lit "") ]

/-- QueryClassifier._sanitize_input: strip script blocks, dangerous tag
blocks, standalone tags, script-execution protocol prefixes, shell
metacharacters and null bytes, then strip surrounding whitespace. -/
def sanitize_input (text : Str) : Str :=
  let t1 := scan_remove match_script text
  let t2 := scan_remove match_danger_tag t1
  let t3 := scan_remove match_tag t2
  let t4 := remove_ci (lit "javascript:") t3
  let t5 := remove_ci (lit "data:") t4
  let t6 := remove_ci (lit "vbscript:") t5
  let t7 := command_injection_replacements.foldl (fun s pr => replaceAll pr.1 pr.2 s) t6
  let t8 := replaceAll (lit "\x00") (lit "") t7
  trimStr t8

/-- Stop words removed during preprocessing, in source order. -/
def classifier_stop_words : List Str :=
  [lit "please", lit "can you", lit "could you", lit "i want", lit "i need"]

/-- QueryClassifier._preprocess_query: sanitize, normalize whitespace,
lower-case, delete stop words, and normalize whitespace again. -/
def preprocess_query (query : Str) : Str :=
  let q := sanitize_input query
  let processed := collapseWs (trimStr q)
  let processedLower := lowerStr processed
  let noStops := classifier_stop_words.foldl (fun s w => replaceAll w (lit "") s) processedLower
  collapseWs (trimStr noStops)

/-- Cache key computed by QueryClassifier.classify_query before any
preprocessing: the fixed tag joined with the hash of the raw query text.
The process-wide string hash is an external capability and is passed in. -/
def classification_cache_key (h : Str → Int) (query : Str) : Str :=
  lit "query_classification:" ++ (toString (h query)).data

/-- SQL routing indicator vocabulary of the fallback classifier. -/
def sql_indicators : List Str :=
  [ lit "how many", lit "count", lit "total", lit "sum", lit "average", lit "max", lit "min",
    lit "list", lit "show", lit "display", lit "get", lit "find", lit "search",
    lit "employees", lit "salary", lit "department", lit "position", lit "hire date",
    lit "database", lit "table", lit "record", lit "data" ]

/-- Document routing indicator vocabulary of the fallback classifier. -/
def document_indicators : List Str :=
  [ lit "resume", lit "cv", lit "document", lit "file", lit "pdf", lit "contract",
    lit "review", lit "performance", lit "evaluation", lit "feedback",
    lit "policy", lit "procedure", lit "guideline", lit "manual",
    lit "skills", lit "experience", lit "education", lit "qualification" ]

/-- Hybrid routing indicator vocabulary of the fallback classifier. -/
def hybrid_indicators : List Str :=
  [ lit "with", lit "having", lit "containing", lit "including", lit "that have",
    lit "who", lit "which", lit "where", lit "when", lit "and", lit "or" ]

/-- Complexity vocabulary marking a query complex in the fallback path. -/
def complexity_indicators_complex : List Str :=
  [lit "join", lit "subquery", lit "union", lit "having", lit "case when"]

/-- Complexity vocabulary marking a query medium in the fallback path. -/
def complexity_indicators_medium : List Str :=
  [lit "average", lit "sum", lit "group by", lit "order by"]

/-- Classification result record (the classifier result dict). -/
structure Classification where
  query_type : Str
  confidence : ℚ
  reasoning : Str
  entities : List Str
  intent : Str
  complexity : Str
  deriving DecidableEq

/-- Number of SQL indicators contained in the lower-cased query. -/
def fallback_sql_score (ql : Str) : Nat := sql_indicators.countP (fun i => contains_sub i ql)

/-- Number of document indicators contained in the lower-cased query. -/
def fallback_document_score (ql : Str) : Nat :=
  document_indicators.countP (fun i => contains_sub i ql)

/-- Number of hybrid indicators contained in the lower-cased query. -/
def fallback_hybrid_score (ql : Str) : Nat :=
  hybrid_indicators.countP (fun i => contains_sub i ql)

/-- QueryClassifier._fallback_classification: deterministic pattern scorer
used when the Mistral oracle fails. -/
def fallback_classification (query : Str) : Classification :=
  let ql := lowerStr query
  let sql_score := fallback_sql_score ql
  let document_score := fallback_document_score ql
  let hybrid_score := fallback_hybrid_score ql
  let tc : Str × ℚ :=
    if hybrid_score > 0 ∧ (sql_score > 0 ∨ document_score > 0) then
      (lit "HYBRID_QUERY", py_min 0.8 (0.5 + (hybrid_score : ℚ) * 0.1))
    else if sql_score > document_score then
      (lit "SQL_QUERY", py_min 0.8 (0.5 + (sql_score : ℚ) * 0.1))
    else if document_score > 0 then
      (lit "DOCUMENT_QUERY", py_min 0.8 (0.5 + (document_score : ℚ) * 0.1))
    else
      (lit "SQL_QUERY", 0.3)
  let complexity :=
    if complexity_indicators_complex.any (fun i => contains_sub i ql) then lit "complex"
    else if complexity_indicators_medium.any (fun i => contains_sub i ql) then lit "medium"
    else lit "simple"
  let entities := (sql_indicators ++ document_indicators).filter (fun i => contains_sub i ql)
  { query_type := tc.1
    confidence := tc.2
    reasoning := lit "Pattern-based classification: SQL=" ++ (toString sql_score).data ++
      lit ", Document=" ++ (toString document_score).data ++
      lit ", Hybrid=" ++ (toString hybrid_score).data
    entities := entities
    intent := lit "unknown"
    complexity := complexity }

/-- Valid query types accepted by _enhance_classification. -/
def valid_query_types : List Str :=
  [lit "SQL_QUERY", lit "DOCUMENT_QUERY", lit "HYBRID_QUERY", lit "unknown"]

/-- Confidence validation step of QueryClassifier._enhance_classification:
out-of-range confidences are reset to one half.  The non-numeric branch of
the source is unrepresentable in the typed embedding. -/
def validate_confidence (c : ℚ) : ℚ := if c < 0 ∨ c > 1 then 0.5 else c

/-- Query-type validation step of QueryClassifier._enhance_classification. -/
def validate_query_type (t : Str) : Str :=
  if valid_query_types.contains t then t else lit "unknown"

/-! ### SQLGenerator (sql_generator.py) -/

/-- Deny-listed SQL keywords checked by the security validator, in source
order. -/
def dangerous_patterns : List Str :=
  [ lit "DROP", lit "DELETE", lit "UPDATE", lit "INSERT", lit "ALTER", lit "CREATE",
    lit "TRUNCATE", lit "EXEC", lit "EXECUTE", lit "UNION", lit "INFORMATION_SCHEMA" ]

/-- Token that is a word character for the regex class backslash-w. -/
def isWordChar (c : Char) : Bool := c.isAlphanum || c = '_'

/-- Remainder after the first occurrence of tok, if any (case-sensitive;
used on uppercased text to embed re.IGNORECASE searches for literals). -/
def after_tok (tok : Str) : Str → Option Str
  | [] => if tok.isEmpty then some [] else none
  | c :: rest =>
    if List.isPrefixOf tok (c :: rest) then some ((c :: rest).drop tok.length)
    else after_tok tok rest

/-- One line contains the given literal tokens in order, separated by
arbitrary non-newline text: existence of a match for the regex formed by
joining the tokens with lazy any-character gaps.  Matching the first
occurrence of each token in turn is complete for literal tokens. -/
def line_has_seq : List Str → Str → Bool
  | [], _ => true
  | t :: ts, line =>
    match after_tok t line with
    | some rest => line_has_seq ts rest
    | none => false

/-- Some line of the text matches the token sequence: the regex dot does
not cross newlines (the security patterns are compiled without DOTALL). -/
def has_regex_seq (toks : List Str) (s : Str) : Bool :=
  (splitChars (fun c => c = '\n') s).any (line_has_seq toks)

/-- Injection patterns of _validate_sql_security, each as the source regex
text paired with its literal-token skeleton: quote manipulation, SQL line
comments, block comments, union attacks and always-true conditions. -/
def injection_patterns : List (Str × List Str) :=
  [ (lit "\x27.*\x27.*\x27.*", [lit "\x27", lit "\x27", lit "\x27"]),
    (lit "--", [lit "--"]),
    (lit "\\/\\*.*\\*\\/", [lit "/*", lit "*/"]),
    (lit "UNION.*SELECT", [lit "UNION", lit "SELECT"]),
    (lit "OR.*1.*=.*1", [lit "OR", lit "1", lit "=", lit "1"]) ]

/-- Result of the security validator. -/
structure SecurityResult where
  safe : Bool
  reason : Str

/-- SQLGenerator._validate_sql_security: reject when the uppercased
statement contains a deny-listed keyword, else when any injection pattern
matches case-insensitively. -/
def validate_sql_security (sql : Str) : SecurityResult :=
  let sql_upper := upperStr sql
  match dangerous_patterns.find? (fun p => contains_sub p sql_upper) with
  | some p => ⟨false, lit "Dangerous SQL pattern detected: " ++ p⟩
  | none =>
    match injection_patterns.find? (fun pr => has_regex_seq pr.2 (upperStr sql)) with
    | some pr => ⟨false, lit "Potential SQL injection pattern detected: " ++ pr.1⟩
    | none => ⟨true, lit "SQL appears safe"⟩

/-- Table description within a schema (name, columns, description). -/
structure TableInfo where
  columns : List Str
  description : Str

/-- Schema information dict: insertion-ordered tables and relationships. -/
structure SchemaInfo where
  tables : List (Str × TableInfo)
  relationships : List (Str × Str × Str)

/-- SQLGenerator._get_basic_schema_info: the fallback schema. -/
def get_basic_schema_info : SchemaInfo :=
  { tables :=
      [ (lit "employees",
         ⟨[lit "id", lit "name", lit "email", lit "department", lit "position",
           lit "salary", lit "hire_date"], lit "Employee information table"⟩),
        (lit "departments",
         ⟨[lit "id", lit "name", lit "description", lit "manager_id"],
          lit "Department information table"⟩) ]
    relationships := [(lit "employees.department", lit "departments.id", lit "foreign_key")] }

/-- Attempt to match keyword, one-or-more whitespace, then a captured
word, at the head of the string (regex fragment keyword backslash-s plus
backslash-w plus); returns the word and the remainder after it. -/
def match_kw_word (kw : Str) (s : Str) : Option (Str × Str) :=
  if ci_is_pre kw s then
    let r1 := s.drop kw.length
    let ws := r1.takeWhile isWs
    if ws.isEmpty then none
    else
      let r2 := r1.dropWhile isWs
      let w := r2.takeWhile isWordChar
      if w.isEmpty then none else some (w, r2.drop w.length)
  else none

/-- First captured word for re.search of keyword-whitespace-word. -/
def find_first_kw_word (kw : Str) : Str → Option Str
  | [] => none
  | c :: rest =>
    match match_kw_word kw (c :: rest) with
    | some (w, _) => some w
    | none => find_first_kw_word kw rest

/-- Counter-driven scanner for re.findall of keyword-whitespace-word:
non-overlapping matches left to right, skipping each matched span. -/
def find_all_kw_word_aux (kw : Str) : Str → Nat → List Str
  | [], _ => []
  | _ :: rest, k + 1 => find_all_kw_word_aux kw rest k
  | c :: rest, 0 =>
    match match_kw_word kw (c :: rest) with
    | some (w, rem) => w :: find_all_kw_word_aux kw rest (rest.length - rem.length)
    | none => find_all_kw_word_aux kw rest 0

/-- All captured words for re.findall of keyword-whitespace-word. -/
def find_all_kw_word (kw : Str) (s : Str) : List Str := find_all_kw_word_aux kw s 0

/-- SQLGenerator._extract_tables_from_sql: the first FROM target plus all
JOIN targets. -/
def extract_tables_from_sql (sql : Str) : List Str :=
  (match find_first_kw_word (lit "FROM") sql with
   | some t => [t]
   | none => []) ++ find_all_kw_word (lit "JOIN") sql

/-- Lazy-capture search for the column-list regex: after SELECT and its
greedy whitespace run, grow the non-newline capture minimally until a
whitespace run followed by FROM matches.  Whitespace and word classes are
disjoint from the adjacent literals, so greedy runs never backtrack. -/
def select_capture_from (s : Str) : Option Str :=
  let ws := s.takeWhile isWs
  if ws.isEmpty then none
  else
    let rest := s.dropWhile isWs
    (List.range (rest.length + 1)).findSome? (fun k =>
      let cap := rest.take k
      if cap.all (fun c => !(c = '\n')) then
        let r2 := rest.drop k
        if !(r2.takeWhile isWs).isEmpty && ci_is_pre (lit "FROM") (r2.dropWhile isWs) then
          some cap
        else none
      else none)

/-- Scan for the earliest start position of the SELECT column regex. -/
def search_select_cols : Str → Option Str
  | [] => none
  | c :: rest =>
    if ci_is_pre (lit "SELECT") (c :: rest) then
      match select_capture_from ((c :: rest).drop 6) with
      | some cap => some cap
      | none => search_select_cols rest
    else search_select_cols rest

/-- SQLGenerator._extract_columns_from_sql: the SELECT clause split on
commas and stripped, unless it is a bare star. -/
def extract_columns_from_sql (sql : Str) : List Str :=
  match search_select_cols sql with
  | some sel =>
    if sel = lit "*" then [] else (splitChars (fun c => c = ',') sel).map trimStr
  | none => []

/-- Result of the schema validator. -/
structure SchemaCheck where
  valid : Bool
  errors : List Str
  reason : Str

/-- Split a qualified column at its first dot (Python split with count 1). -/
def split_first_dot (col : Str) : Str × Str :=
  ((col.takeWhile (fun c => !(c = '.'))), (col.dropWhile (fun c => !(c = '.'))).drop 1)

/-- SQLGenerator._validate_sql_schema: referenced tables must exist, and
qualified columns must exist in their tables. -/
def validate_sql_schema (sql : Str) (schema_info : SchemaInfo) : SchemaCheck :=
  let tables_used := extract_tables_from_sql sql
  let available_tables := schema_info.tables.map (fun t => t.1)
  let table_errors := (tables_used.filter (fun t => !available_tables.contains t)).map
    (fun t => lit "Table \x27" ++ t ++ lit "\x27 not found in schema")
  let columns_used := extract_columns_from_sql sql
  let column_errors := columns_used.filterMap (fun column =>
    if column.contains '.' then
      let tc := split_first_dot column
      match schema_info.tables.lookup tc.1 with
      | some info =>
        if !info.columns.contains tc.2 then
          some (lit "Column \x27" ++ tc.2 ++ lit "\x27 not found in table \x27" ++ tc.1 ++ lit "\x27")
        else none
      | none => none
    else none)
  let errors := table_errors ++ column_errors
  ⟨errors.isEmpty, errors, lit "Schema validation completed"⟩

/-- SQLGenerator._optimize_sql: strip and collapse whitespace, then append
the fixed row bound to SELECT statements lacking a LIMIT token. -/
def optimize_sql (sql : Str) : Str :=
  let optimized := collapseWs (trimStr sql)
  if List.isPrefixOf (lit "SELECT") (upperStr optimized) &&
      !contains_sub (lit "LIMIT") (upperStr optimized) then
    optimized ++ lit " LIMIT 1000"
  else optimized

/-- SQL generation result record (the generator result dict).  Fields the
source adds only on some paths are optional, mirroring absent dict keys;
in particular security_valid is never set on the security-failure path. -/
structure SqlResult where
  sql : Str
  confidence : ℚ
  reasoning : Str
  tables_used : List Str
  columns_used : List Str
  query_type : Str
  error : Option Str := none
  security_valid : Option Bool := none
  schema_valid : Option Bool := none
  validation_errors : Option (List Str) := none
  optimized : Option Bool := none

/-- SQLGenerator._validate_and_optimize_sql: security rejection zeroes the
confidence and returns at once (leaving security_valid unset); schema
mismatch subtracts from the confidence; surviving SELECTs are bounded. -/
def validate_and_optimize_sql (sql_result : SqlResult) (schema_info : SchemaInfo) : SqlResult :=
  let sql_query := sql_result.sql
  let security_result := validate_sql_security sql_query
  if !security_result.safe then
    { sql_result with
      error := some (lit "SQL security validation failed: " ++ security_result.reason)
      confidence := 0 }
  else
    let schema_result := validate_sql_schema sql_query schema_info
    let r1 :=
      if !schema_result.valid then
        { sql_result with
          error := some (lit "SQL schema validation failed: " ++ schema_result.reason)
          confidence := py_max 0 (sql_result.confidence - 0.2) }
      else sql_result
    let r2 := { r1 with
      security_valid := some security_result.safe
      schema_valid := some schema_result.valid
      validation_errors := some schema_result.errors }
    let optimized_sql := optimize_sql sql_query
    if optimized_sql ≠ sql_query then
      { r2 with sql := optimized_sql, optimized := some true }
    else r2

/-- SQLGenerator.generate_sql on a cache miss, with the parsed oracle (or
fallback) response supplied as input: the pipeline always runs the parsed
result through validation and optimization.  The Redis cache read and
write are external key-value effects. -/
def generate_sql (parsed : SqlResult) (schema_info : SchemaInfo) : SqlResult :=
  validate_and_optimize_sql parsed schema_info

/-- Execution result record of SQLGenerator.execute_sql. -/
structure ExecResult (α : Type) where
  success : Bool
  results : List α
  row_count : Nat
  sql : Str
  error : Option Str

/-- SQLGenerator.execute_sql with the external relational execution
capability (db_utils.execute_query) passed in; the second component of the
pair records every statement issued to that capability.  A missing LIMIT
token gets the default row bound appended before execution. -/
def execute_sql (run_query : Str → Except Str (List α)) (sql : Str) (limit : Nat) :
    ExecResult α × List Str :=
  let sql2 :=
    if !contains_sub (lit "LIMIT") (upperStr sql) then
      sql ++ lit " LIMIT " ++ (toString limit).data
    else sql
  match run_query sql2 with
  | Except.ok rows => (⟨true, rows, rows.length, sql2, none⟩, [sql2])
  | Except.error e => (⟨false, [], 0, sql2, some e⟩, [sql2])

/-! ### HybridQueryProcessor (hybrid_query_processor.py) -/

/-- Formatted result item produced by _format_sql_results (row payloads
stay opaque). -/
structure FormattedResult (α : Type) where
  id : Str
  type : Str
  data : α
  relevance_score : ℚ
  source : Str

/-- Index-carrying helper for the enumerate loop of _format_sql_results. -/
def format_sql_results_aux (i : Nat) : List α → List (FormattedResult α)
  | [] => []
  | r :: rest =>
    ⟨lit "sql_" ++ (toString i).data, lit "sql", r, 1 - (i : ℚ) * 0.1, lit "database"⟩ ::
      format_sql_results_aux (i + 1) rest

/-- HybridQueryProcessor._format_sql_results: each row is labelled with a
decreasing relevance score of one minus a tenth per rank. -/
def format_sql_results (sql_results : List α) : List (FormattedResult α) :=
  format_sql_results_aux 0 sql_results

/-- Outcome record of _process_sql_only. -/
structure ProcessOutcome (α : Type) where
  success : Bool
  error : Option Str
  query_type : Str
  sql : Option Str
  results : List (FormattedResult α)
  total_results : Nat
  confidence : ℚ

/-- HybridQueryProcessor._process_sql_only with the generator result and
the external relational executor passed in; the second component records
every statement the call issued to the executor.  Any non-empty generated
statement is executed, whatever its validation outcome. -/
def process_sql_only (run_query : Str → Except Str (List α)) (sql_result : SqlResult) :
    ProcessOutcome α × List Str :=
  if sql_result.sql.isEmpty then
    (⟨false, some (lit "Failed to generate SQL"), lit "SQL_QUERY", none, [], 0, 0⟩, [])
  else
    let er := execute_sql run_query sql_result.sql 1000
    if !er.1.success then
      (⟨false, (er.1.error).orElse (fun _ => some (lit "SQL execution failed")),
        lit "SQL_QUERY", none, [], 0, 0⟩, er.2)
    else
      let formatted := format_sql_results er.1.results
      (⟨true, none, lit "SQL_QUERY", some sql_result.sql, formatted, formatted.length,
        sql_result.confidence⟩, er.2)

/-- Aggregate vocabulary of _determine_merge_strategy. -/
def merge_sql_vocab : List Str :=
  [lit "how many", lit "count", lit "total", lit "number of"]

/-- Retrieval vocabulary of _determine_merge_strategy. -/
def merge_document_vocab : List Str :=
  [lit "show me", lit "find", lit "search", lit "resume", lit "document"]

/-- HybridQueryProcessor._determine_merge_strategy: cascade on the
lower-cased query text, then on the two result-list sizes. -/
def determine_merge_strategy (sql_results : List α) (document_results : List β)
    (query : Str) : Str :=
  let query_lower := lowerStr query
  if merge_sql_vocab.any (fun p => contains_sub p query_lower) then lit "sql_primary"
  else if merge_document_vocab.any (fun p => contains_sub p query_lower) then
    lit "document_primary"
  else if sql_results.length > document_results.length * 2 then lit "sql_primary"
  else if document_results.length > sql_results.length * 2 then lit "document_primary"
  else lit "combined"

/-! ### DocumentSearchEngine (document_search_engine.py) -/

/-- Search configuration of the engine. -/
structure SearchConfig where
  default_limit : Nat
  max_limit : Nat
  similarity_threshold : ℚ
  cache_ttl : Nat

/-- DocumentSearchEngine.search_config. -/
def search_config : SearchConfig :=
  { default_limit := 10, max_limit := 100, similarity_threshold := 0.3, cache_ttl := 3600 }

/-- DocumentSearchEngine.collection_priorities. -/
def collection_priorities : List (Str × ℚ) :=
  [ (lit "resume_chunks", 1), (lit "contract_chunks", 0.9), (lit "review_chunks", 0.8),
    (lit "policy_chunks", 0.7), (lit "employee_documents", 0.6) ]

/-- Priority weight of a collection, defaulting to one half. -/
def priority_of (collection : Str) : ℚ := (collection_priorities.lookup collection).getD 0.5

/-- Chunk metadata as consumed by the ranking engine.  The age in days is
supplied as data because the source computes it from the wall clock; a
missing or unparsable creation timestamp is the none case. -/
structure ChunkMetadata where
  doc_type : Str
  section_type : Str
  chunk_type : Str
  days_old : Option Int

/-- DocumentSearchEngine._calculate_content_quality: weighted blend of
normalized length, query-term density and structural signals, capped at
one. -/
def calculate_content_quality (document : Str) (query : Str) : ℚ :=
  if document.isEmpty then 0
  else
    let length_score := py_min 1 ((document.length : ℚ) / 1000)
    let query_words := py_split (lowerStr query)
    let document_lower := lowerStr document
    let keyword_matches := query_words.countP (fun w => contains_sub w document_lower)
    let keyword_score :=
      if query_words.isEmpty then 0 else py_min 1 ((keyword_matches : ℚ) / query_words.length)
    let s1 : ℚ := 0.5
    let s2 := if contains_sub (lit ".") document || contains_sub (lit "!") document ||
        contains_sub (lit "?") document then s1 + 0.2 else s1
    let s3 := if contains_sub (lit "\n") document || contains_sub (lit "\t") document then
        s2 + 0.2 else s2
    let structure_score := if (py_split document).length > 10 then s3 + 0.1 else s3
    py_min 1 (length_score * 0.3 + keyword_score * 0.4 + structure_score * 0.3)

/-- DocumentSearchEngine._calculate_metadata_bonus: a tenth per recognized
tag and a tenth for documents under thirty days old, capped at one. -/
def calculate_metadata_bonus (metadata : ChunkMetadata) : ℚ :=
  let b1 : ℚ := if !metadata.doc_type.isEmpty then 0.1 else 0
  let b2 := if !metadata.section_type.isEmpty && metadata.section_type ≠ lit "unknown" then
      b1 + 0.1 else b1
  let b3 := if !metadata.chunk_type.isEmpty && metadata.chunk_type ≠ lit "unknown" then
      b2 + 0.1 else b2
  let b4 := match metadata.days_old with
    | some d => if d < 30 then b3 + 0.1 else b3
    | none => b3
  py_min 1 b4

/-- Per-collection hit after _search_collection converts a raw vector-store
row (document, metadata, distance) into a result with similarity one minus
distance. -/
structure CollectionHit where
  document : Str
  metadata : ChunkMetadata
  distance : ℚ
  collection : Str
  similarity_score : ℚ

/-- Fully ranked result carrying the scores _rank_search_results adds. -/
structure RankedResult where
  document : Str
  metadata : ChunkMetadata
  distance : ℚ
  collection : Str
  similarity_score : ℚ
  ranking_score : ℚ
  content_quality : ℚ
  metadata_bonus : ℚ

/-- Score computation of the ranking loop body for one result. -/
def score_hit (query : Str) (r : CollectionHit) : RankedResult :=
  let content_score := calculate_content_quality r.document query
  let metadata_score := calculate_metadata_bonus r.metadata
  let priority_score := priority_of r.collection
  { document := r.document
    metadata := r.metadata
    distance := r.distance
    collection := r.collection
    similarity_score := r.similarity_score
    ranking_score := r.similarity_score * 0.4 + priority_score * 0.2 +
      content_score * 0.2 + metadata_score * 0.2
    content_quality := content_score
    metadata_bonus := metadata_score }

/-- DocumentSearchEngine._rank_search_results: score every hit, sort by
descending ranking score (stable, as Python sorted), and keep hits meeting
the similarity threshold. -/
def rank_search_results (results : List CollectionHit) (query : Str) : List RankedResult :=
  if results.isEmpty then []
  else
    let scored := results.map (score_hit query)
    let ranked := scored.mergeSort (fun a b => decide (b.ranking_score ≤ a.ranking_score))
    ranked.filter (fun r => decide (search_config.similarity_threshold ≤ r.similarity_score))

/-- Raw row returned by the external vector-store query for a collection. -/
structure RawHit where
  document : Str
  metadata : ChunkMetadata
  distance : ℚ

/-- DocumentSearchEngine._search_collection given the external vector-store
query capability (collection name and result bound to raw rows). -/
def search_collection (coll_query : Str → Nat → List RawHit) (name : Str) (limit : Nat) :
    List CollectionHit :=
  (coll_query name limit).map (fun h =>
    ⟨h.document, h.metadata, h.distance, name, 1 - h.distance⟩)

/-- Collections known to the engine, in source order. -/
def all_collections : List Str :=
  [ lit "employee_documents", lit "resume_chunks", lit "contract_chunks",
    lit "review_chunks", lit "policy_chunks" ]

/-- Document-type filter table of _get_collections_to_search. -/
def collection_type_mapping : List (Str × List Str) :=
  [ (lit "resume", [lit "resume_chunks"]), (lit "contract", [lit "contract_chunks"]),
    (lit "review", [lit "review_chunks"]), (lit "policy", [lit "policy_chunks"]),
    (lit "document", [lit "employee_documents"]) ]

/-- DocumentSearchEngine._get_collections_to_search with collection
existence supplied by the external vector store; an absent or empty doc
type selects every collection. -/
def get_collections_to_search (available : Str → Bool) (doc_type : Option Str) : List Str :=
  let collections :=
    match doc_type with
    | some t =>
      if t.isEmpty then all_collections
      else (collection_type_mapping.lookup (lowerStr t)).getD all_collections
    | none => all_collections
  collections.filter available

/-- Search outcome record of search_documents. -/
structure SearchOutcome where
  success : Bool
  error : Option Str
  results : List RankedResult
  total_results : Nat
  collections_searched : List Str

/-- DocumentSearchEngine.search_documents on a cache miss, with the
external capabilities passed in: collection availability, the per
collection vector query, and whether query embedding succeeded.  The
requested limit is capped by the configured maximum before searching, and
the ranked results are truncated to the capped limit. -/
def search_documents (available : Str → Bool) (coll_query : Str → Nat → List RawHit)
    (embedding_ok : Bool) (query : Str) (doc_type : Option Str) (limit : Nat) :
    SearchOutcome :=
  let limit := min limit search_config.max_limit
  if !embedding_ok then
    ⟨false, some (lit "Failed to generate query embedding"), [], 0, []⟩
  else
    let collections_to_search := get_collections_to_search available doc_type
    let all_results :=
      (collections_to_search.map (fun name => search_collection coll_query name limit)).flatten
    let ranked_results := rank_search_results all_results query
    let final_results := ranked_results.take limit
    ⟨true, none, final_results, final_results.length, collections_to_search⟩

/-! ### DocumentProcessor sentence-based chunking (document_processor.py) -/

/-- Sentence terminator class of the chunker split regex. -/
def isSentenceEnd (c : Char) : Bool := c = '.' || c = '!' || c = '?'

/-- Sentence list of _chunk_by_size: split on terminator runs, strip, and
drop empties (splitting at every terminator and filtering empties is
extensionally the split on one-or-more terminators). -/
def split_sentences (content : Str) : List Str :=
  ((splitChars isSentenceEnd content).map trimStr).filter (fun s => !s.isEmpty)

/-- Overlap seed of the chunker: the trailing overlap characters of the
buffer, or the whole buffer when it is no longer than the overlap. -/
def overlap_window (overlap : Nat) (current_chunk : Str) : Str :=
  if current_chunk.length > overlap then takeRightN overlap current_chunk else current_chunk

/-- Chunk record emitted by _chunk_by_size (text plus its sentence list;
the chunk_type field is the constant size_based). -/
structure SizeChunk where
  text : Str
  sentences : List Str
  deriving DecidableEq

/-- Main loop of _chunk_by_size over the remaining sentences, the running
buffer and its sentence list: a sentence that would overflow the bound
flushes the stripped buffer and reseeds it from the overlap window. -/
def chunk_loop (max_size overlap : Nat) : List Str → Str → List Str → List SizeChunk
  | [], current_chunk, chunk_sentences =>
    if !(trimStr current_chunk).isEmpty then [⟨trimStr current_chunk, chunk_sentences⟩] else []
  | sentence :: rest, current_chunk, chunk_sentences =>
    if current_chunk.length + sentence.length > max_size ∧ current_chunk ≠ [] then
      ⟨trimStr current_chunk, chunk_sentences⟩ ::
        chunk_loop max_size overlap rest
          (overlap_window overlap current_chunk ++ ' ' :: sentence) [sentence]
    else
      chunk_loop max_size overlap rest
        (if current_chunk.isEmpty then sentence else current_chunk ++ ' ' :: sentence)
        (chunk_sentences ++ [sentence])

/-- DocumentProcessor._chunk_by_size for a strategy with the given bound
and overlap. -/
def chunk_by_size (content : Str) (max_size overlap : Nat) : List SizeChunk :=
  chunk_loop max_size overlap (split_sentences content) [] []

/-- Pre-strip buffers of the chunker: the same loop as chunk_loop but
emitting each buffer before the final strip, for relating adjacent chunks
to the overlap window taken from the unstripped buffer. -/
def buffer_loop (max_size overlap : Nat) : List Str → Str → List Str → List (Str × List Str)
  | [], current_chunk, chunk_sentences =>
    if !(trimStr current_chunk).isEmpty then [(current_chunk, chunk_sentences)] else []
  | sentence :: rest, current_chunk, chunk_sentences =>
    if current_chunk.length + sentence.length > max_size ∧ current_chunk ≠ [] then
      (current_chunk, chunk_sentences) ::
        buffer_loop max_size overlap rest
          (overlap_window overlap current_chunk ++ ' ' :: sentence) [sentence]
    else
      buffer_loop max_size overlap rest
        (if current_chunk.isEmpty then sentence else current_chunk ++ ' ' :: sentence)
        (chunk_sentences ++ [sentence])

/-- Longest sentence length of a document, bounding the chunk slack. -/
def max_sentence_len (content : Str) : Nat :=
  (split_sentences content).foldr (fun s m => max s.length m) 0

/-! ### Sample inputs used by concrete instantiations -/

/-- Parsed generator output for a benign aggregate query. -/
def count_query_result : SqlResult :=
  { sql := lit "SELECT COUNT(*) FROM employees", confidence := 0.9,
    reasoning := lit "count of employees", tables_used := [lit "employees"],
    columns_used := [lit "COUNT(*)"], query_type := lit "COUNT" }

/-- Parsed generator output echoing a dangerous statement. -/
def drop_query_result : SqlResult :=
  { sql := lit "DROP TABLE employees", confidence := 0.9,
    reasoning := lit "echoed dangerous statement", tables_used := [],
    columns_used := [], query_type := lit "SELECT" }

/-- Parsed generator output for a SELECT carrying a SQL line comment,
which the injection patterns reject. -/
def comment_select_result : SqlResult :=
  { sql := lit "SELECT * FROM employees -- test", confidence := 0.7,
    reasoning := lit "select with comment", tables_used := [lit "employees"],
    columns_used := [], query_type := lit "SELECT" }

/-- Parsed generator output whose statement hides a keyword behind an
inserted space. -/
def spaced_drop_result : SqlResult :=
  { sql := lit "D ROP TABLE x", confidence := 0.5,
    reasoning := lit "spaced keyword", tables_used := [],
    columns_used := [], query_type := lit "SELECT" }

/-- Parsed generator output with a cased keyword. -/
def cased_drop_result : SqlResult :=
  { sql := lit "dRoP tAbLe x", confidence := 0.5,
    reasoning := lit "cased keyword", tables_used := [],
    columns_used := [], query_type := lit "SELECT" }

/-- Collection hit used to instantiate the ranking theorems. -/
def sample_hit : CollectionHit :=
  { document := lit "alpha beta", metadata := ⟨lit "resume", lit "skills", lit "content", some 3⟩,
    distance := 0.5, collection := lit "resume_chunks", similarity_score := 0.5 }

/-- Twin of sample_hit with a lower similarity score. -/
def sample_hit_lo : CollectionHit :=
  { document := lit "alpha beta", metadata := ⟨lit "resume", lit "skills", lit "content", some 3⟩,
    distance := 0.7, collection := lit "resume_chunks", similarity_score := 0.3 }

/-! ### Shared lemmas -/

theorem dropWhile_length_le (p : Char → Bool) (l : Str) :
    (l.dropWhile p).length ≤ l.length := by
  induction l with
  | nil => simp [List.dropWhile]
  | cons c rest ih =>
    by_cases hc : p c = true
    · simp only [List.dropWhile, hc]; exact Nat.le_trans ih (by simp)
    · simp [List.dropWhile, hc]

theorem trimStr_length_le (s : Str) : (trimStr s).length ≤ s.length := by
  unfold trimStr trimLeftStr trimRightStr
  calc ((s.reverse.dropWhile isWs).reverse.dropWhile isWs).length
      ≤ (s.reverse.dropWhile isWs).reverse.length := dropWhile_length_le _ _
    _ ≤ s.length := by
        rw [List.length_reverse]
        exact Nat.le_trans (dropWhile_length_le _ _) (by simp)

theorem overlap_window_length_le (o : Nat) (cur : Str) (ho : 0 < o) :
    (overlap_window o cur).length ≤ o := by
  unfold overlap_window takeRightN
  split
  · rw [if_neg (by omega : ¬ o = 0)]
    simp only [List.length_drop]
    omega
  · omega

theorem foldr_max_le {l : List Str} {s : Str} (hs : s ∈ l) :
    s.length ≤ l.foldr (fun s m => max s.length m) 0 := by
  induction l with
  | nil => cases hs
  | cons t rest ih =>
    rcases List.mem_cons.mp hs with h | h
    · subst h; simp [List.foldr]
    · exact Nat.le_trans (ih h) (by simp [List.foldr])

theorem validate_sql_security_unsafe {sql kw : Str} (hk : kw ∈ dangerous_patterns)
    (hc : contains_sub kw (upperStr sql) = true) :
    (validate_sql_security sql).safe = false := by
  unfold validate_sql_security
  have hsome : (dangerous_patterns.find? (fun p => contains_sub p (upperStr sql))).isSome := by
    rw [List.find?_isSome]
    exact ⟨kw, hk, hc⟩
  cases hfind : dangerous_patterns.find? (fun p => contains_sub p (upperStr sql)) with
  | none => rw [hfind] at hsome; simp at hsome
  | some p => simp [hfind]

/-! ### Claim theorems -/

/-- Claim C2, counterexample: the statement with a space inserted inside
the keyword contains the deny-listed keyword DROP once casing and
whitespace are normalized away, yet the security validator reports it
safe and the validation step leaves its confidence untouched, contrary
to the claim that such statements get security_valid false and
confidence zero. -/
theorem C2_counterexample :
    contains_sub (lit "DROP") ((upperStr spaced_drop_result.sql).filter (fun c => !isWs c)) = true
    ∧ (validate_sql_security spaced_drop_result.sql).safe = true
    ∧ (validate_and_optimize_sql spaced_drop_result get_basic_schema_info).confidence = 0.5 := by
  refine ⟨by decide, by decide, ?_⟩
  have hsec : (validate_sql_security (lit "D ROP TABLE x")).safe = true := by decide
  have hsch : (validate_sql_schema (lit "D ROP TABLE x") get_basic_schema_info).valid = true := by
    decide
  have hopt : optimize_sql (lit "D ROP TABLE x") = lit "D ROP TABLE x" := by decide
  simp [validate_and_optimize_sql, spaced_drop_result, hsec, hsch, hopt]

/-- Claim C2, amended: a candidate statement whose uppercased text contains
a deny-listed keyword as a contiguous substring (so under arbitrary casing,
but not under whitespace inserted inside the keyword) is rejected by the
security validator, and the validation step forces its confidence to zero;
the result record leaves its security_valid field unset on this early
return path. -/
theorem C2_contiguous_keyword_rejected (raw : SqlResult) (schema : SchemaInfo) (kw : Str)
    (hk : kw ∈ dangerous_patterns) (hc : contains_sub kw (upperStr raw.sql) = true) :
    (validate_sql_security raw.sql).safe = false
    ∧ (validate_and_optimize_sql raw schema).confidence = 0
    ∧ (validate_and_optimize_sql raw schema).security_valid = raw.security_valid := by
  have hsec := validate_sql_security_unsafe hk hc
  exact ⟨hsec, by simp [validate_and_optimize_sql, hsec], by simp [validate_and_optimize_sql, hsec]⟩

/-- Witness for the amended claim C2 at a cased keyword. -/
theorem C2_contiguous_keyword_rejected_witness :
    (lit "DROP" ∈ dangerous_patterns
      ∧ contains_sub (lit "DROP") (upperStr cased_drop_result.sql) = true)
    ∧ ((validate_sql_security cased_drop_result.sql).safe = false
      ∧ (validate_and_optimize_sql cased_drop_result get_basic_schema_info).confidence = 0
      ∧ (validate_and_optimize_sql cased_drop_result get_basic_schema_info).security_valid =
          cased_drop_result.security_valid) :=
  ⟨⟨by decide, by decide⟩,
    C2_contiguous_keyword_rejected cased_drop_result get_basic_schema_info (lit "DROP")
      (by decide) (by decide)⟩

/-- Claim C9, counterexample: a SELECT carrying a SQL line comment has no
row-limit clause, yet the validation step rejects it for the comment
injection pattern and early-returns the statement unchanged, without the
claimed LIMIT 1000 bound appended. -/
theorem C9_counterexample :
    List.isPrefixOf (lit "SELECT")
        (upperStr (collapseWs (trimStr comment_select_result.sql))) = true
    ∧ contains_sub (lit "LIMIT") (upperStr comment_select_result.sql) = false
    ∧ (validate_and_optimize_sql comment_select_result get_basic_schema_info).sql =
        comment_select_result.sql
    ∧ contains_sub (lit "LIMIT")
        (upperStr (validate_and_optimize_sql comment_select_result
          get_basic_schema_info).sql) = false := by
  refine ⟨by decide, by decide, by decide, by decide⟩

/-- Claim C9, amended: a generated statement that passes security
validation, is a SELECT (after the whitespace normalization of the
optimizer), and carries no LIMIT token, is returned with the fixed LIMIT
1000 bound appended, uniformly in the statement, covering aggregates and
COUNT star; a statement rejected by security validation early-returns
unchanged and unbounded. -/
theorem C9_select_bounded (raw : SqlResult) (schema : SchemaInfo)
    (hsafe : (validate_sql_security raw.sql).safe = true)
    (hsel : List.isPrefixOf (lit "SELECT") (upperStr (collapseWs (trimStr raw.sql))) = true)
    (hlim : contains_sub (lit "LIMIT") (upperStr (collapseWs (trimStr raw.sql))) = false) :
    (validate_and_optimize_sql raw schema).sql =
      collapseWs (trimStr raw.sql) ++ lit " LIMIT 1000" := by
  have hopt : optimize_sql raw.sql = collapseWs (trimStr raw.sql) ++ lit " LIMIT 1000" := by
    unfold optimize_sql
    simp [hsel, hlim]
  unfold validate_and_optimize_sql
  simp only [hsafe, Bool.not_true, Bool.false_eq_true, if_false]
  split
  · simp [hopt]
  · split <;> simp_all [hopt]

/-- Witness for the amended claim C9 at the COUNT star aggregate. -/
theorem C9_select_bounded_witness :
    ((validate_sql_security count_query_result.sql).safe = true
      ∧ List.isPrefixOf (lit "SELECT")
          (upperStr (collapseWs (trimStr count_query_result.sql))) = true
      ∧ contains_sub (lit "LIMIT")
          (upperStr (collapseWs (trimStr count_query_result.sql))) = false)
    ∧ (validate_and_optimize_sql count_query_result get_basic_schema_info).sql =
        collapseWs (trimStr count_query_result.sql) ++ lit " LIMIT 1000" :=
  ⟨⟨by decide, by decide, by decide⟩,
    C9_select_bounded count_query_result get_basic_schema_info
      (by decide) (by decide) (by decide)⟩

/-- Claim C1: a generated statement that fails security validation (its
confidence forced to zero and an error recorded) is nevertheless handed to
the external relational execution capability by the SQL-only processing
path, which checks only that the statement is non-empty; the recorded call
list shows the dangerous statement issued with the appended row bound. -/
theorem C1_security_failed_statement_still_executed (α : Type)
    (run_query : Str → Except Str (List α)) (schema : SchemaInfo) :
    (validate_sql_security drop_query_result.sql).safe = false
    ∧ (generate_sql drop_query_result schema).confidence = 0
    ∧ (process_sql_only run_query (generate_sql drop_query_result schema)).2 =
        [lit "DROP TABLE employees LIMIT 1000"] := by
  have hsec : (validate_sql_security (lit "DROP TABLE employees")).safe = false := by decide
  have hgen : generate_sql drop_query_result schema =
      { drop_query_result with
        error := some (lit "SQL security validation failed: " ++
          (validate_sql_security (lit "DROP TABLE employees")).reason)
        confidence := 0 } := by
    unfold generate_sql validate_and_optimize_sql
    simp [drop_query_result, hsec]
  refine ⟨hsec, by rw [hgen], ?_⟩
  rw [hgen]
  unfold process_sql_only execute_sql
  have hne : (lit "DROP TABLE employees").isEmpty = false := by decide
  have hlim : contains_sub (lit "LIMIT") (upperStr (lit "DROP TABLE employees")) = false := by
    decide
  have happ : lit "DROP TABLE employees" ++ lit " LIMIT " ++ (toString (1000 : Nat)).data =
      lit "DROP TABLE employees LIMIT 1000" := by decide
  simp only [drop_query_result, hne, hlim, Bool.not_false, if_true, Bool.false_eq_true, if_false,
    happ]
  cases run_query (lit "DROP TABLE employees LIMIT 1000") <;> simp

theorem format_sql_results_aux_scores (α : Type) (rs : List α) :
    ∀ i : Nat, (format_sql_results_aux i rs).map (fun r => r.relevance_score) =
      (List.range' i rs.length).map (fun (k : Nat) => 1 - (k : ℚ) * 0.1) := by
  induction rs with
  | nil => intro i; simp [format_sql_results_aux]
  | cons r rest ih =>
    intro i
    simp only [format_sql_results_aux, List.map_cons, List.length_cons, List.range'_succ]
    rw [ih (i + 1)]

/-- Claim C3, counterexample: the SQL-result formatter assigns relevance
scores of one minus a tenth per rank, so the twelfth formatted row carries
relevance score minus one tenth, outside the unit interval the claim
asserts for every score field. -/
theorem C3_counterexample :
    (-(1 : ℚ)/10) ∈ (format_sql_results (List.replicate 12 (0 : Nat))).map
        (fun r => r.relevance_score)
    ∧ (-(1 : ℚ)/10) < 0 := by
  constructor
  · rw [format_sql_results, format_sql_results_aux_scores]
    simp only [List.length_replicate]
    norm_num [List.range']
  · norm_num

/-- Claim C3, amended: the classifier enhancement step does validate its
confidence into the unit interval, but the SQL-result formatter assigns
relevance score one minus a tenth per rank, which leaves the unit interval
from the twelfth row on; SQL-generation confidences parsed from oracle
text are not clamped by validation. -/
theorem C3_confidence_clamped_but_relevance_unbounded :
    (∀ c : ℚ, 0 ≤ validate_confidence c ∧ validate_confidence c ≤ 1)
    ∧ ∀ (α : Type) (rs : List α),
        (format_sql_results rs).map (fun r => r.relevance_score) =
          (List.range rs.length).map (fun (k : Nat) => 1 - (k : ℚ) * 0.1) := by
  constructor
  · intro c
    unfold validate_confidence
    split
    · norm_num
    · rename_i hn
      push_neg at hn
      exact ⟨hn.1, hn.2⟩
  · intro α rs
    rw [format_sql_results, format_sql_results_aux_scores, List.range_eq_range']

/-- Claim C4, counterexample: the query count pdf scores one SQL indicator
and one document indicator with no hybrid indicator, a tie, yet the
fallback classifier returns DOCUMENT_QUERY with confidence six tenths,
not the claimed SQL default with confidence three tenths. -/
theorem C4_counterexample :
    fallback_sql_score (lowerStr (lit "count pdf")) =
      fallback_document_score (lowerStr (lit "count pdf"))
    ∧ fallback_sql_score (lowerStr (lit "count pdf")) > 0
    ∧ fallback_hybrid_score (lowerStr (lit "count pdf")) = 0
    ∧ (fallback_classification (lit "count pdf")).query_type = lit "DOCUMENT_QUERY"
    ∧ (fallback_classification (lit "count pdf")).query_type ≠ lit "SQL_QUERY"
    ∧ (fallback_classification (lit "count pdf")).confidence = 0.6 := by
  have hs : fallback_sql_score (lowerStr (lit "count pdf")) = 1 := by decide
  have hd : fallback_document_score (lowerStr (lit "count pdf")) = 1 := by decide
  have hh : fallback_hybrid_score (lowerStr (lit "count pdf")) = 0 := by decide
  refine ⟨by decide, by decide, by decide, by decide, by decide, ?_⟩
  simp only [fallback_classification, hs, hd, hh]
  norm_num [py_min]

/-- Claim C4, amended: the fallback classifier returns HYBRID when a
hybrid indicator matches together with a SQL or document indicator, and
otherwise the higher match count wins; but a tie with matches present
classifies as DOCUMENT_QUERY (with the document confidence formula), and
the SQL default with confidence three tenths applies exactly when neither
vocabulary matches at all. -/
theorem C4_fallback_cascade (query : Str) :
    (fallback_hybrid_score (lowerStr query) > 0 ∧
        (fallback_sql_score (lowerStr query) > 0 ∨ fallback_document_score (lowerStr query) > 0) →
      (fallback_classification query).query_type = lit "HYBRID_QUERY")
    ∧ (¬(fallback_hybrid_score (lowerStr query) > 0 ∧
          (fallback_sql_score (lowerStr query) > 0 ∨
            fallback_document_score (lowerStr query) > 0)) →
        fallback_sql_score (lowerStr query) > fallback_document_score (lowerStr query) →
      (fallback_classification query).query_type = lit "SQL_QUERY")
    ∧ (¬(fallback_hybrid_score (lowerStr query) > 0 ∧
          (fallback_sql_score (lowerStr query) > 0 ∨
            fallback_document_score (lowerStr query) > 0)) →
        ¬(fallback_sql_score (lowerStr query) > fallback_document_score (lowerStr query)) →
        fallback_document_score (lowerStr query) > 0 →
      (fallback_classification query).query_type = lit "DOCUMENT_QUERY"
        ∧ (fallback_classification query).confidence =
          py_min 0.8 (0.5 + (fallback_document_score (lowerStr query) : ℚ) * 0.1))
    ∧ (¬(fallback_hybrid_score (lowerStr query) > 0 ∧
          (fallback_sql_score (lowerStr query) > 0 ∨
            fallback_document_score (lowerStr query) > 0)) →
        ¬(fallback_sql_score (lowerStr query) > fallback_document_score (lowerStr query)) →
        ¬(fallback_document_score (lowerStr query) > 0) →
      (fallback_classification query).query_type = lit "SQL_QUERY"
        ∧ (fallback_classification query).confidence = 0.3) := by
  refine ⟨?_, ?_, ?_, ?_⟩
  · intro h1; simp [fallback_classification, h1]
  · intro h1 h2; simp [fallback_classification, h1, h2]
  · intro h1 h2 h3
    have hh : ¬ fallback_hybrid_score (lowerStr query) > 0 := fun hgt => h1 ⟨hgt, Or.inr h3⟩
    constructor <;> simp [fallback_classification, hh, h2, h3]
  · intro h1 h2 h3
    have hs0 : ¬ fallback_sql_score (lowerStr query) > 0 := by omega
    constructor <;> simp [fallback_classification, hs0, h2, h3]

/-- Witness for the amended claim C4: a pure aggregate question takes the
SQL branch of the cascade. -/
theorem C4_fallback_cascade_witness :
    (¬(fallback_hybrid_score (lowerStr (lit "how many employees")) > 0 ∧
        (fallback_sql_score (lowerStr (lit "how many employees")) > 0 ∨
          fallback_document_score (lowerStr (lit "how many employees")) > 0))
      ∧ fallback_sql_score (lowerStr (lit "how many employees")) >
          fallback_document_score (lowerStr (lit "how many employees")))
    ∧ (fallback_classification (lit "how many employees")).query_type = lit "SQL_QUERY" :=
  ⟨⟨by decide, by decide⟩,
    (C4_fallback_cascade (lit "how many employees")).2.1 (by decide) (by decide)⟩

/-- Claim C5, counterexample: two raw queries that normalize to the same
preprocessed text produce different classification cache keys, because
the key is hashed from the raw text before preprocessing (exhibited with
the length function standing for the process-wide string hash, which also
distinguishes these two raw texts). -/
theorem C5_counterexample :
    preprocess_query (lit "How  many employees") = preprocess_query (lit "how many employees")
    ∧ lit "How  many employees" ≠ lit "how many employees"
    ∧ classification_cache_key (fun s => (s.length : Int)) (lit "How  many employees") ≠
        classification_cache_key (fun s => (s.length : Int)) (lit "how many employees") := by
  refine ⟨by decide, by decide, ?_⟩
  decide

/-- Claim C5, amended: the classification cache key is derived from a hash
of the raw query text, computed before sanitization and normalization:
queries with equal raw-text hashes share a cache entry, and normalization
plays no role in the key. -/
theorem C5_cache_key_from_raw_hash (h : Str → Int) (a b : Str) (hab : h a = h b) :
    classification_cache_key h a = classification_cache_key h b := by
  unfold classification_cache_key
  rw [hab]

/-- Witness for the amended claim C5. -/
theorem C5_cache_key_from_raw_hash_witness :
    (fun (s : Str) => (s.length : Int)) (lit "count pdf") =
      (fun (s : Str) => (s.length : Int)) (lit "employees")
    ∧ classification_cache_key (fun s => (s.length : Int)) (lit "count pdf") =
        classification_cache_key (fun s => (s.length : Int)) (lit "employees") :=
  ⟨by decide, C5_cache_key_from_raw_hash (fun s => (s.length : Int))
    (lit "count pdf") (lit "employees") (by decide)⟩

/-- Claim C8, counterexample: the query average salary contains the
claimed aggregate vocabulary word average, yet the merge-strategy cascade
returns combined rather than sql_primary, because the source vocabulary is
how many, count, total and number of, without average or sum. -/
theorem C8_counterexample :
    contains_sub (lit "average") (lowerStr (lit "average salary")) = true
    ∧ determine_merge_strategy ([] : List Unit) ([] : List Unit) (lit "average salary") =
        lit "combined"
    ∧ determine_merge_strategy ([] : List Unit) ([] : List Unit) (lit "average salary") ≠
        lit "sql_primary" := by
  refine ⟨by decide, by decide, by decide⟩

/-- Claim C8, amended: merge-strategy selection is the source cascade: the
aggregate vocabulary is how many, count, total, number of (not average or
sum); it wins first, then the retrieval vocabulary show me, find, search,
resume, document, then a SQL result count more than double the document
count, then the mirror size test, and combined otherwise. -/
theorem C8_merge_strategy_cascade (α β : Type) (sqlr : List α) (docr : List β) (q : Str) :
    (merge_sql_vocab.any (fun p => contains_sub p (lowerStr q)) = true →
      determine_merge_strategy sqlr docr q = lit "sql_primary")
    ∧ (merge_sql_vocab.any (fun p => contains_sub p (lowerStr q)) = false →
        merge_document_vocab.any (fun p => contains_sub p (lowerStr q)) = true →
      determine_merge_strategy sqlr docr q = lit "document_primary")
    ∧ (merge_sql_vocab.any (fun p => contains_sub p (lowerStr q)) = false →
        merge_document_vocab.any (fun p => contains_sub p (lowerStr q)) = false →
        sqlr.length > docr.length * 2 →
      determine_merge_strategy sqlr docr q = lit "sql_primary")
    ∧ (merge_sql_vocab.any (fun p => contains_sub p (lowerStr q)) = false →
        merge_document_vocab.any (fun p => contains_sub p (lowerStr q)) = false →
        ¬(sqlr.length > docr.length * 2) → docr.length > sqlr.length * 2 →
      determine_merge_strategy sqlr docr q = lit "document_primary")
    ∧ (merge_sql_vocab.any (fun p => contains_sub p (lowerStr q)) = false →
        merge_document_vocab.any (fun p => contains_sub p (lowerStr q)) = false →
        ¬(sqlr.length > docr.length * 2) → ¬(docr.length > sqlr.length * 2) →
      determine_merge_strategy sqlr docr q = lit "combined") := by
  refine ⟨?_, ?_, ?_, ?_, ?_⟩
  · intro h1; simp [determine_merge_strategy, h1]
  · intro h1 h2; simp [determine_merge_strategy, h1, h2]
  · intro h1 h2 h3; simp [determine_merge_strategy, h1, h2, h3]
  · intro h1 h2 h3 h4; simp [determine_merge_strategy, h1, h2, h3, h4]
  · intro h1 h2 h3 h4; simp [determine_merge_strategy, h1, h2, h3, h4]

/-- Witness for the amended claim C8 on the aggregate vocabulary branch. -/
theorem C8_merge_strategy_cascade_witness :
    merge_sql_vocab.any (fun p => contains_sub p (lowerStr (lit "how many employees"))) = true
    ∧ determine_merge_strategy ([] : List Unit) ([] : List Unit) (lit "how many employees") =
        lit "sql_primary" :=
  ⟨by decide,
    (C8_merge_strategy_cascade Unit Unit [] [] (lit "how many employees")).1 (by decide)⟩

/-- Claim C10: for any requested limit, the document search returns at
most the minimum of the requested limit and the configured maximum of one
hundred: the engine caps the effective limit before searching and
truncates the ranked results to it. -/
theorem C10_search_limit_capped (available : Str → Bool)
    (coll_query : Str → Nat → List RawHit) (embedding_ok : Bool) (query : Str)
    (doc_type : Option Str) (limit : Nat) :
    (search_documents available coll_query embedding_ok query doc_type limit).results.length ≤
      min limit search_config.max_limit
    ∧ (search_documents available coll_query embedding_ok query doc_type limit).results.length ≤
      100 := by
  have hcap : (search_documents available coll_query embedding_ok query doc_type
      limit).results.length ≤ min limit search_config.max_limit := by
    unfold search_documents
    split
    · simp
    · simp only [List.length_take]
      exact min_le_left _ _
  refine ⟨hcap, Nat.le_trans hcap ?_⟩
  exact min_le_right _ _

/-- Claim C7: every ranked retrieval candidate carries a ranking score
equal to four tenths of its similarity plus two tenths each of its
collection priority, content quality and metadata bonus; and the score is
monotonic in raw similarity when the document, metadata and collection
factors are held fixed. -/
theorem C7_ranking_formula_and_monotonicity :
    (∀ (results : List CollectionHit) (query : Str) (r : RankedResult),
        r ∈ rank_search_results results query →
        r.ranking_score = 0.4 * r.similarity_score + 0.2 * priority_of r.collection +
          0.2 * r.content_quality + 0.2 * r.metadata_bonus)
    ∧ ∀ (a b : CollectionHit) (query : Str),
        a.document = b.document → a.metadata = b.metadata → a.collection = b.collection →
        b.similarity_score < a.similarity_score →
        (score_hit query b).ranking_score ≤ (score_hit query a).ranking_score := by
  constructor
  · intro results query r hr
    unfold rank_search_results at hr
    split at hr
    · simp at hr
    · have h1 := List.mem_of_mem_filter hr
      rw [List.mem_mergeSort] at h1
      obtain ⟨hit, -, rfl⟩ := List.mem_map.mp h1
      simp only [score_hit]
      ring
  · intro a b query hdoc hmeta hcoll hsim
    simp only [score_hit, hdoc, hmeta, hcoll]
    have hstep : b.similarity_score * 0.4 ≤ a.similarity_score * 0.4 := by nlinarith
    linarith

/-- Witness for claim C7 at a concrete singleton retrieval. -/
theorem C7_ranking_witness :
    (score_hit (lit "alpha") sample_hit ∈ rank_search_results [sample_hit] (lit "alpha"))
    ∧ (score_hit (lit "alpha") sample_hit).ranking_score =
        0.4 * (score_hit (lit "alpha") sample_hit).similarity_score +
          0.2 * priority_of (score_hit (lit "alpha") sample_hit).collection +
          0.2 * (score_hit (lit "alpha") sample_hit).content_quality +
          0.2 * (score_hit (lit "alpha") sample_hit).metadata_bonus
    ∧ (sample_hit_lo.document = sample_hit.document
        ∧ sample_hit_lo.metadata = sample_hit.metadata
        ∧ sample_hit_lo.collection = sample_hit.collection
        ∧ sample_hit_lo.similarity_score < sample_hit.similarity_score)
    ∧ (score_hit (lit "alpha") sample_hit_lo).ranking_score ≤
        (score_hit (lit "alpha") sample_hit).ranking_score := by
  have hpred : decide (search_config.similarity_threshold ≤
      (score_hit (lit "alpha") sample_hit).similarity_score) = true := by
    rw [decide_eq_true_eq]
    show search_config.similarity_threshold ≤ _
    norm_num [score_hit, sample_hit, search_config]
  have hmem : score_hit (lit "alpha") sample_hit ∈
      rank_search_results [sample_hit] (lit "alpha") := by
    unfold rank_search_results
    simp [List.mergeSort_singleton, hpred]
  have hsim : sample_hit_lo.similarity_score < sample_hit.similarity_score := by
    norm_num [sample_hit, sample_hit_lo]
  exact ⟨hmem,
    C7_ranking_formula_and_monotonicity.1 [sample_hit] (lit "alpha") _ hmem,
    ⟨rfl, rfl, rfl, hsim⟩,
    C7_ranking_formula_and_monotonicity.2 sample_hit sample_hit_lo (lit "alpha")
      rfl rfl rfl hsim⟩

theorem chunk_loop_eq_map_buffer (m o : Nat) :
    ∀ (ss : List Str) (cur : Str) (css : List Str),
      chunk_loop m o ss cur css =
        (buffer_loop m o ss cur css).map (fun p => SizeChunk.mk (trimStr p.1) p.2) := by
  intro ss
  induction ss with
  | nil =>
    intro cur css
    unfold chunk_loop buffer_loop
    by_cases hc : trimStr cur = []
    · simp [hc]
    · simp [hc]
  | cons s rest ih =>
    intro cur css
    unfold chunk_loop buffer_loop
    by_cases hc : cur.length + s.length > m ∧ cur ≠ []
    · rw [if_pos hc, if_pos hc, List.map_cons, ih]
    · rw [if_neg hc, if_neg hc, ih]

theorem buffer_loop_chain (m o : Nat) :
    ∀ (ss : List Str) (cur : Str) (css : List Str),
      List.Chain' (fun p q => overlap_window o p.1 <+: q.1) (buffer_loop m o ss cur css)
      ∧ ∀ hd tl, buffer_loop m o ss cur css = hd :: tl → cur <+: hd.1 := by
  intro ss
  induction ss with
  | nil =>
    intro cur css
    unfold buffer_loop
    by_cases hc : trimStr cur = []
    · simp [hc]
    · rw [if_pos (by simp [hc] : (!List.isEmpty (trimStr cur)) = true)]
      refine ⟨by simp, ?_⟩
      intro hd tl heq
      injection heq with h1 h2
      rw [← h1]
  | cons s rest ih =>
    intro cur css
    unfold buffer_loop
    by_cases hc : cur.length + s.length > m ∧ cur ≠ []
    · rw [if_pos hc]
      obtain ⟨ih1, ih2⟩ := ih (overlap_window o cur ++ ' ' :: s) [s]
      constructor
      · rw [List.chain'_cons']
        refine ⟨?_, ih1⟩
        intro q hq
        cases hL : buffer_loop m o rest (overlap_window o cur ++ ' ' :: s) [s] with
        | nil => rw [hL] at hq; simp at hq
        | cons hd tl =>
          rw [hL] at hq
          simp only [List.head?_cons, Option.mem_def, Option.some.injEq] at hq
          rw [← hq]
          exact List.IsPrefix.trans ⟨' ' :: s, rfl⟩ (ih2 hd tl hL)
      · intro hd tl heq
        have h1 : (cur, css) = hd := by injection heq
        rw [← h1]
    · rw [if_neg hc]
      obtain ⟨ih1, ih2⟩ := ih (if cur.isEmpty then s else cur ++ ' ' :: s) (css ++ [s])
      refine ⟨ih1, ?_⟩
      intro hd tl heq
      refine List.IsPrefix.trans ?_ (ih2 hd tl heq)
      by_cases he : cur.isEmpty = true
      · have hce : cur = [] := List.isEmpty_iff.mp he
        subst hce
        exact List.nil_prefix
      · simp only [he, if_false]
        exact ⟨' ' :: s, rfl⟩

theorem chunk_loop_length_bound (m o L : Nat) (ho0 : 0 < o) (ho : o ≤ m) :
    ∀ (ss : List Str) (cur : Str) (css : List Str),
      (∀ s ∈ ss, s.length ≤ L) → cur.length ≤ m + 1 + L →
      ∀ c ∈ chunk_loop m o ss cur css, c.text.length ≤ m + 1 + L := by
  intro ss
  induction ss with
  | nil =>
    intro cur css hss hcur c hc
    unfold chunk_loop at hc
    split at hc
    · simp only [List.mem_singleton] at hc
      rw [hc]
      exact Nat.le_trans (trimStr_length_le cur) hcur
    · simp at hc
  | cons s rest ih =>
    intro cur css hss hcur c hc
    unfold chunk_loop at hc
    by_cases hcond : cur.length + s.length > m ∧ cur ≠ []
    · rw [if_pos hcond] at hc
      rcases List.mem_cons.mp hc with h | h
      · rw [h]
        exact Nat.le_trans (trimStr_length_le cur) hcur
      · refine ih _ _ (fun t ht => hss t (List.mem_cons_of_mem _ ht)) ?_ c h
        have h1 : (overlap_window o cur).length ≤ o := overlap_window_length_le o cur ho0
        have h2 : s.length ≤ L := hss s (List.mem_cons_self _ _)
        simp only [List.length_append, List.length_cons]
        omega
    · rw [if_neg hcond] at hc
      refine ih _ _ (fun t ht => hss t (List.mem_cons_of_mem _ ht)) ?_ c hc
      have h2 : s.length ≤ L := hss s (List.mem_cons_self _ _)
      by_cases he : cur.isEmpty = true
      · simp [he]
        omega
      · have hne : cur ≠ [] := fun hceq => by simp [hceq] at he
        have hlen : ¬(cur.length + s.length > m) := fun hgt => hcond ⟨hgt, hne⟩
        simp [he]
        omega

/-- Claim C6, counterexample: chunking the given content with bound twelve
and overlap three produces five chunks whose interior third and fourth
chunks fail the claimed relation: the fourth chunk does not begin with the
trailing three characters of the third, because the trailing window starts
with a space that the final strip removes from the emitted text. -/
theorem C6_counterexample :
    (chunk_by_size (lit "abcdefgh. ij. klmnopq. rs. tuvwxyz. final.") 12 3).map
        (fun c => c.text) =
      [lit "abcdefgh ij", lit "ij klmnopq", lit "opq rs", lit "rs tuvwxyz", lit "xyz final"]
    ∧ List.isPrefixOf (takeRightN 3 (lit "opq rs")) (lit "rs tuvwxyz") = false := by
  refine ⟨by decide, by decide⟩

/-- Claim C6, amended: when the overlap is positive and does not exceed
the chunk bound (as in every configured strategy), every emitted chunk has
length at most the bound plus a separator and one sentence of slack; each emitted chunk is the whitespace-stripped form of a
loop buffer, and each successive buffer begins with the trailing overlap
window of its predecessor (followed by a space and the overflowing
sentence). After stripping, the emitted text of the next chunk may
therefore begin with less than the full overlap window of the previous
chunk when that window starts inside whitespace. -/
theorem C6_chunk_bound_and_buffer_overlap (content : Str) (max_size overlap : Nat)
    (ho0 : 0 < overlap) (ho : overlap ≤ max_size) :
    (∀ c ∈ chunk_by_size content max_size overlap,
        c.text.length ≤ max_size + 1 + max_sentence_len content)
    ∧ chunk_by_size content max_size overlap =
        (buffer_loop max_size overlap (split_sentences content) [] []).map
          (fun p => SizeChunk.mk (trimStr p.1) p.2)
    ∧ List.Chain' (fun p q => overlap_window overlap p.1 <+: q.1)
        (buffer_loop max_size overlap (split_sentences content) [] []) := by
  refine ⟨?_, ?_, ?_⟩
  · intro c hc
    exact chunk_loop_length_bound max_size overlap (max_sentence_len content) ho0 ho
      (split_sentences content) [] [] (fun s hs => foldr_max_le hs) (by simp) c hc
  · exact chunk_loop_eq_map_buffer _ _ _ _ _
  · exact (buffer_loop_chain _ _ _ _ _).1

/-- Witness for the amended claim C6 at the five-chunk example. -/
theorem C6_chunk_bound_witness :
    (0 < 3 ∧ 3 ≤ 12)
    ∧ ((∀ c ∈ chunk_by_size (lit "abcdefgh. ij. klmnopq. rs. tuvwxyz. final.") 12 3,
          c.text.length ≤ 12 + 1 +
            max_sentence_len (lit "abcdefgh. ij. klmnopq. rs. tuvwxyz. final."))
      ∧ chunk_by_size (lit "abcdefgh. ij. klmnopq. rs. tuvwxyz. final.") 12 3 =
          (buffer_loop 12 3
            (split_sentences (lit "abcdefgh. ij. klmnopq. rs. tuvwxyz. final.")) [] []).map
            (fun p => SizeChunk.mk (trimStr p.1) p.2)
      ∧ List.Chain' (fun p q => overlap_window 3 p.1 <+: q.1)
          (buffer_loop 12 3
            (split_sentences (lit "abcdefgh. ij. klmnopq. rs. tuvwxyz. final.")) [] [])) :=
  ⟨⟨by decide, by decide⟩,
    C6_chunk_bound_and_buffer_overlap (lit "abcdefgh. ij. klmnopq. rs. tuvwxyz. final.") 12 3
      (by decide) (by decide)⟩

end NLQ
